import Mathlib

/-!
Verification of the logprise log-accumulation-and-notification bridge
(`src/logprise/__init__.py`), as a shallow embedding in Lean.

The embedding models the mutable state of an `Appriser` instance (notification
level, flush interval, buffer, scheduler, crash flag), the delivery layer as an
oracle of type `Except String Bool` (an exception message, or the boolean the
delivery layer returns), the loguru handler table for removal prevention, and
the sys/threading exception-hook chains.
-/

namespace Logprise

/-- A loguru message as seen by `Appriser.accumulate_log` and
`Appriser.send_notification`: the numeric severity rank
(`message.record["level"].no`) and the formatted text (the `str` content that
`"".join(self.buffer)` concatenates). -/
structure Message where
  levelNo : ℤ
  text : String
deriving DecidableEq

/-- The mutable scalar state of an `Appriser` instance that the claims touch:
`_notification_level`, `_flush_interval`, `buffer`, whether the periodic flush
thread is running (`_flush_thread` alive and `_stop_event` clear), and the
class-level `_exit_via_unhandled_exception` flag. -/
structure ApprState where
  notificationLevel : ℤ
  flushInterval : ℚ
  buffer : List Message
  schedulerRunning : Bool
  exitViaUnhandledException : Bool
deriving DecidableEq

/-- `Appriser.accumulate_log` (lines 346-349): append the message to the buffer
when `message.record["level"].no >= self.notification_level`. -/
def accumulateLog (s : ApprState) (m : Message) : ApprState :=
  if s.notificationLevel ≤ m.levelNo then
    { s with buffer := s.buffer ++ [m] }
  else
    s

/-- The carriage-return character removed by `.replace("\r", "")`. -/
def carriageReturn : Char := Char.ofNat 13

/-- `"".join(self.buffer)`: concatenation of the buffered message texts. -/
def joinBuffer (buffer : List Message) : String :=
  String.join (buffer.map Message.text)

/-- `.replace("\r", "")`: drop every carriage-return character. -/
def stripCR (s : String) : String :=
  String.mk (s.data.filter (fun c => c != carriageReturn))

/-- Behaviour of one `self.apprise_obj.notify(...)` call: it either returns a
boolean or raises an exception carrying a message. -/
inductive NotifyOutcome where
  | returned (b : Bool)
  | raised (e : String)
deriving DecidableEq

/-- Result of one `Appriser.send_notification` call: the buffer afterwards,
whether `self.apprise_obj.notify` was called and what it produced
(`none` = never called), and whether the `except` clause logged a warning. -/
structure SendResult where
  buffer : List Message
  submitted : Option NotifyOutcome
  warned : Bool
deriving DecidableEq

/-- `Appriser.send_notification` (lines 351-371) on a buffer, with the delivery
layer's behaviour given as the oracle `notify`.  Empty buffer: debug log and
return.  Otherwise the joined, carriage-return-stripped message gates the
short-circuit `if message and self.apprise_obj.notify(...)`; on `True` the
buffer is cleared; a raised exception is caught and logged as a warning. -/
def sendNotification (buffer : List Message) (notify : NotifyOutcome) :
    SendResult :=
  if buffer = [] then
    ⟨buffer, none, false⟩
  else
    let message := stripCR (joinBuffer buffer)
    if message = "" then
      ⟨buffer, none, false⟩
    else
      match notify with
      | .returned true => ⟨[], some (.returned true), false⟩
      | .returned false => ⟨buffer, some (.returned false), false⟩
      | .raised e => ⟨buffer, some (.raised e), true⟩

/-- A Python value passed to the `flush_interval` setter: a number (`int` and
`float` both satisfy `isinstance(value, int | float)`; modelled as one rational)
or a value of any other type. -/
inductive FlushValue where
  | num (q : ℚ)
  | nonNumeric (descr : String)
deriving DecidableEq

/-- The `flush_interval` setter (lines 272-281).  Non-numeric or non-positive
input raises `ValueError` (second component `true`) with the state untouched;
otherwise, when the value differs from the current one, it is stored and the
periodic flush loop is stopped and restarted. -/
def setFlushInterval (s : ApprState) (v : FlushValue) : ApprState × Bool :=
  match v with
  | .nonNumeric _ => (s, true)
  | .num q =>
    if q ≤ 0 then
      (s, true)
    else if s.flushInterval ≠ q then
      ({ s with flushInterval := q, schedulerRunning := true }, false)
    else
      (s, false)

/-- The default loguru level table (`logger.level(name).no`). -/
def loguruLevels : List (String × ℤ) :=
  [("TRACE", 5), ("DEBUG", 10), ("INFO", 20), ("SUCCESS", 25),
   ("WARNING", 30), ("ERROR", 40), ("CRITICAL", 50)]

/-- `logger.level(name).no` for names the structured logger can resolve. -/
def lookupLevel (name : String) : Option ℤ :=
  loguruLevels.lookup name

/-- A Python value passed to the `notification_level` setter: an `int`, a `str`,
a `loguru._logger.Level` object (carrying its numeric rank), or any other
type. -/
inductive LevelValue where
  | int (n : ℤ)
  | str (name : String)
  | level (name : String) (levelNo : ℤ)
  | other (descr : String)
deriving DecidableEq

/-- How the `notification_level` setter terminates. -/
inductive SetLevelOutcome where
  | ok
  | valueError
  | typeError
deriving DecidableEq

/-- The `notification_level` setter (lines 334-344).  `int` is stored directly;
`str` goes through `logger.level(value).no` (which raises `ValueError` for an
unknown name); a `Level` object contributes its `.no`; any other type raises
`TypeError` and leaves the stored rank unchanged. -/
def setNotificationLevel (s : ApprState) (v : LevelValue) :
    ApprState × SetLevelOutcome :=
  match v with
  | .int n => ({ s with notificationLevel := n }, .ok)
  | .str name =>
    match lookupLevel name with
    | some r => ({ s with notificationLevel := r }, .ok)
    | none => (s, .valueError)
  | .level _ r => ({ s with notificationLevel := r }, .ok)
  | .other _ => (s, .typeError)

/-- A standard-logging record as seen by `InterceptHandler.emit`: the
`_has_been_handled_by_interceptor` marker, the level name and number, and the
formatted message (`record.getMessage()`). -/
structure StdRecord where
  hasBeenHandled : Bool
  levelname : String
  levelno : ℤ
  message : String
deriving DecidableEq

/-- The level `InterceptHandler.emit` forwards at: the loguru level name when
`logger.level(record.levelname)` resolves, else the raw numeric level. -/
def resolveLevel (r : StdRecord) : String ⊕ ℤ :=
  match lookupLevel r.levelname with
  | some _ => Sum.inl r.levelname
  | none => Sum.inr r.levelno

/-- `InterceptHandler.emit` (lines 53-75): if the record carries the
already-handled marker, return immediately forwarding nothing; otherwise set
the marker and forward the message once to the structured logger at the
resolved level.  The second component lists the `(level, message)` pairs
forwarded by this call. -/
def emit (r : StdRecord) : StdRecord × List ((String ⊕ ℤ) × String) :=
  if r.hasBeenHandled then
    (r, [])
  else
    ({ r with hasBeenHandled := true }, [(resolveLevel r, r.message)])

/-- A hook installed as `sys.excepthook` or `threading.excepthook`.
`wrapper inner` is `partial(self._handle_uncaught_*_exception,
original_excepthook=inner)` for some `Appriser` instance; `original b` is any
other callable, with `b` recording whether `Appriser._is_method_in_stdlib`
classifies it as standard-library code. -/
inductive ExcHook where
  | original (isStdlib : Bool)
  | wrapper (inner : ExcHook)
deriving DecidableEq

/-- Whether a hook is an instance wrapper installed by this component. -/
def isWrapperHook : ExcHook → Bool
  | .wrapper _ => true
  | .original _ => false

/-- The `while` loop of `_setup_sys_exception_hook` /
`_setup_threading_exception_hook` (lines 170-175, 184-189): repeatedly unwrap
`hook.keywords["original_excepthook"]` while the current hook is a `partial`
over a handler of the same name. -/
def unwrapHook : ExcHook → ExcHook
  | .wrapper inner => unwrapHook inner
  | .original b => .original b

/-- `Appriser._setup_sys_exception_hook` (lines 165-177): unwrap any existing
instance wrappers, then install a single wrapper around the result. -/
def setupSysHook (current : ExcHook) : ExcHook :=
  ExcHook.wrapper (unwrapHook current)

/-- `Appriser._setup_threading_exception_hook` (lines 179-191): identical
collapse-then-wrap logic on the `threading.excepthook` chain. -/
def setupThreadingHook (current : ExcHook) : ExcHook :=
  ExcHook.wrapper (unwrapHook current)

/-- What `_is_method_in_stdlib` answers for a chained hook.  A `wrapper` is a
`functools.partial` object, whose module resolves to `functools`, a member of
`sys.stdlib_module_names`, so it counts as stdlib; an `original` hook carries
its own classification. -/
def isStdlibHook : ExcHook → Bool
  | .original b => b
  | .wrapper _ => true

/-- How many times delivery (`self.send_notification()`) runs when an uncaught
exception reaches the installed hook.  A wrapper
(`_handle_uncaught_sys_exception`, lines 230-247) logs the exception, sends one
notification, then calls the chained hook only when it is not stdlib code.  A
non-wrapper hook never calls our delivery. -/
def hookDeliveries : ExcHook → ℕ
  | .original _ => 0
  | .wrapper inner =>
    1 + (if isStdlibHook inner then 0 else hookDeliveries inner)

/-- One entry of `logger._core.handlers`: its id and whether the sink is some
instance's `accumulate_log` callback. -/
structure Handler where
  id : ℕ
  isAccumulator : Bool
deriving DecidableEq

/-- The loguru handler table together with the class-level
`Appriser._accumulator_id` bookkeeping. -/
structure LoggerCore where
  handlers : List Handler
  nextId : ℕ
  accumulatorId : Option ℕ
deriving DecidableEq

/-- `logger.add(sink)`: register a sink under a fresh id and return the id. -/
def loggerAdd (c : LoggerCore) (isAcc : Bool) : LoggerCore × ℕ :=
  (⟨c.handlers ++ [⟨c.nextId, isAcc⟩], c.nextId + 1, c.accumulatorId⟩, c.nextId)

/-- The original `loguru._Logger.remove` captured at import time
(`_old_logger_remove`): `remove(None)` drops every handler, `remove(i)` drops
the handler with id `i`. -/
def oldLoggerRemove (c : LoggerCore) (target : Option ℕ) : LoggerCore :=
  match target with
  | none => { c with handlers := [] }
  | some i => { c with handlers := c.handlers.filter (fun h => h.id != i) }

/-- `Appriser._accumulator_id not in logger._core.handlers`, negated: whether
the recorded accumulator handle is still a live handler id. -/
def accumulatorRegistered (c : LoggerCore) : Bool :=
  match c.accumulatorId with
  | none => false
  | some i => c.handlers.any (fun h => h.id == i)

/-- The `_new_remove` wrapper installed by `_setup_removal_prevention`
(lines 118-126): run the original removal, then, if the recorded accumulator
handle is gone from the live handlers, re-register `accumulate_log` and record
the new handle. -/
def newRemove (c : LoggerCore) (target : Option ℕ) : LoggerCore :=
  let c1 := oldLoggerRemove c target
  if accumulatorRegistered c1 then
    c1
  else
    let added := loggerAdd c1 true
    { added.1 with accumulatorId := some added.2 }

/-- The tail of `_setup_removal_prevention` (line 127): a newly constructed
`Appriser` registers its `accumulate_log` and overwrites the class-level
handle. -/
def setupRemovalPrevention (c : LoggerCore) : LoggerCore :=
  let added := loggerAdd c true
  { added.1 with accumulatorId := some added.2 }

/-- The events that touch the handler table: constructing an `Appriser`,
a user adding an ordinary sink, `logger.remove()` (all sinks), and
`logger.remove(i)` (one sink) — the latter two through the installed
`_new_remove` wrapper. -/
inductive LogEvent where
  | construct
  | addSink
  | removeAll
  | removeOne (i : ℕ)
deriving DecidableEq

/-- Apply one event to the handler table. -/
def stepEvent (c : LoggerCore) : LogEvent → LoggerCore
  | .construct => setupRemovalPrevention c
  | .addSink => (loggerAdd c false).1
  | .removeAll => newRemove c none
  | .removeOne i => newRemove c (some i)

/-- Number of registered `accumulate_log` sinks. -/
def countAccumulators (c : LoggerCore) : ℕ :=
  (c.handlers.filter (fun h => h.isAccumulator)).length

/-- Dispatch of one logged record through the handler table: every registered
accumulator sink runs `accumulate_log` on the instance state. -/
def dispatchToSinks (c : LoggerCore) (s : ApprState) (m : Message) : ApprState :=
  c.handlers.foldl (fun st h => if h.isAccumulator then accumulateLog st m else st) s

/-- The externally visible actions of `Appriser.cleanup`, in order. -/
inductive CleanupAction where
  | stopScheduler
  | deliver
deriving DecidableEq

/-- `Appriser.cleanup` (lines 323-328): stop the periodic flush thread, then
send one final notification unless `_exit_via_unhandled_exception` is set.
Returns the state afterwards and the ordered list of actions performed. -/
def cleanup (s : ApprState) (notify : NotifyOutcome) :
    ApprState × List CleanupAction :=
  let s1 := { s with schedulerRunning := false }
  if s1.exitViaUnhandledException then
    (s1, [.stopScheduler])
  else
    ({ s1 with buffer := (sendNotification s1.buffer notify).buffer },
     [.stopScheduler, .deliver])

/-- C1: `accumulate_log` appends the record to the buffer exactly when its
numeric severity rank is at least the configured notification level (the
boundary rank is admitted), and it changes no state besides the buffer. -/
theorem accumulate_log_filters (s : ApprState) (m : Message) :
    ((accumulateLog s m).buffer = s.buffer ++ [m] ↔ s.notificationLevel ≤ m.levelNo) ∧
    ((accumulateLog s m).buffer = s.buffer ↔ ¬ s.notificationLevel ≤ m.levelNo) ∧
    (accumulateLog s m).notificationLevel = s.notificationLevel ∧
    (accumulateLog s m).flushInterval = s.flushInterval ∧
    (accumulateLog s m).schedulerRunning = s.schedulerRunning ∧
    (accumulateLog s m).exitViaUnhandledException = s.exitViaUnhandledException := by
  unfold accumulateLog
  by_cases h : s.notificationLevel ≤ m.levelNo <;> simp [h]

/-- Witness for C1: at threshold 40, a rank-40 record is appended (boundary
inclusive) and a rank-20 record is rejected. -/
theorem accumulate_log_filters_witness :
    (accumulateLog ⟨40, 3600, [], true, false⟩ ⟨40, "boom"⟩).buffer
      = [] ++ [⟨40, "boom"⟩] ∧
    (accumulateLog ⟨40, 3600, [], true, false⟩ ⟨20, "info"⟩).buffer = [] := by
  constructor
  · exact (accumulate_log_filters ⟨40, 3600, [], true, false⟩
      ⟨40, "boom"⟩).1.mpr (by decide)
  · exact (accumulate_log_filters ⟨40, 3600, [], true, false⟩
      ⟨20, "info"⟩).2.1.mpr (by decide)

/-- C2: on a non-empty buffer, `send_notification` clears the buffer when the
delivery layer returns `True`; when the delivery layer returns `False` or
raises, the buffer keeps its exact prior contents in order, and a raised
exception is caught (logged as a warning) rather than propagated — the
function always returns normally. -/
theorem send_notification_outcomes (buf : List Message) (r : NotifyOutcome)
    (h : buf ≠ []) :
    ((sendNotification buf r).submitted = some (NotifyOutcome.returned true) →
      (sendNotification buf r).buffer = []) ∧
    ((sendNotification buf r).submitted = some (NotifyOutcome.returned false) →
      (sendNotification buf r).buffer = buf) ∧
    (∀ e, (sendNotification buf r).submitted = some (NotifyOutcome.raised e) →
      (sendNotification buf r).buffer = buf ∧ (sendNotification buf r).warned = true) := by
  by_cases hm : stripCR (joinBuffer buf) = ""
  · simp [sendNotification, h, hm]
  · cases r with
    | returned b => cases b <;> simp [sendNotification, h, hm]
    | raised e => simp [sendNotification, h, hm]

/-- Witness for C2 on a concrete one-record buffer. -/
theorem send_notification_outcomes_witness :
    (sendNotification [⟨40, "boom"⟩] (NotifyOutcome.returned true)).buffer = [] ∧
    (sendNotification [⟨40, "boom"⟩] (NotifyOutcome.raised "net down")).buffer
      = [⟨40, "boom"⟩] := by
  constructor
  · exact (send_notification_outcomes [⟨40, "boom"⟩] (NotifyOutcome.returned true)
      (by decide)).1 (by decide)
  · exact ((send_notification_outcomes [⟨40, "boom"⟩] (NotifyOutcome.raised "net down")
      (by decide)).2.2 "net down" (by decide)).1

/-- C3: `send_notification` on an empty buffer never consults the delivery
layer and leaves the buffer empty, whatever the delivery layer would do. -/
theorem send_notification_empty_noop (r : NotifyOutcome) :
    sendNotification [] r = ⟨[], none, false⟩ := by
  simp [sendNotification]

/-- Witness for C3: the empty buffer with a delivery layer that would return
`False` — no submission happens and the buffer stays empty. -/
theorem send_notification_empty_noop_witness :
    sendNotification [] (NotifyOutcome.returned false) = ⟨[], none, false⟩ :=
  send_notification_empty_noop (NotifyOutcome.returned false)

/-- C10: a non-empty buffer whose concatenated text becomes empty after
stripping carriage returns produces no submission and is not cleared, whatever
the delivery layer would answer — such records stay buffered. -/
theorem send_notification_blank_keeps_buffer (buf : List Message)
    (r : NotifyOutcome) (h1 : buf ≠ []) (h2 : stripCR (joinBuffer buf) = "") :
    sendNotification buf r = ⟨buf, none, false⟩ := by
  simp [sendNotification, h1, h2]

/-- Witness for C10: a buffer holding one bare carriage-return record. -/
theorem send_notification_blank_keeps_buffer_witness :
    sendNotification [⟨40, "\r"⟩] (NotifyOutcome.returned true)
      = ⟨[⟨40, "\r"⟩], none, false⟩ :=
  send_notification_blank_keeps_buffer [⟨40, "\r"⟩] (NotifyOutcome.returned true)
    (by decide) (by decide)

/-- C6: `cleanup` stops the flush scheduler; when the process-wide
crash-exit flag is set it performs no delivery, otherwise it performs exactly
one final delivery, after the scheduler stop. -/
theorem cleanup_stops_then_delivers (s : ApprState) (r : NotifyOutcome) :
    (cleanup s r).1.schedulerRunning = false ∧
    (s.exitViaUnhandledException = true →
      (cleanup s r).2 = [CleanupAction.stopScheduler] ∧
      (cleanup s r).1.buffer = s.buffer) ∧
    (s.exitViaUnhandledException = false →
      (cleanup s r).2 = [CleanupAction.stopScheduler, CleanupAction.deliver]) ∧
    List.count CleanupAction.deliver (cleanup s r).2 ≤ 1 := by
  by_cases hf : s.exitViaUnhandledException <;> simp [cleanup, hf]

/-- Witness for C6: cleanup on the crash path versus the normal exit path. -/
theorem cleanup_stops_then_delivers_witness :
    (cleanup ⟨40, 3600, [], true, true⟩ (NotifyOutcome.returned true)).2
      = [CleanupAction.stopScheduler] ∧
    (cleanup ⟨40, 3600, [], true, false⟩ (NotifyOutcome.returned true)).2
      = [CleanupAction.stopScheduler, CleanupAction.deliver] :=
  ⟨((cleanup_stops_then_delivers ⟨40, 3600, [], true, true⟩
      (NotifyOutcome.returned true)).2.1 rfl).1,
   (cleanup_stops_then_delivers ⟨40, 3600, [], true, false⟩
      (NotifyOutcome.returned true)).2.2.1 rfl⟩

/-- C7: the `flush_interval` setter rejects non-numeric and non-positive values
with `ValueError`, leaving the stored interval (and the rest of the state)
unchanged, and stores every positive numeric value as given. -/
theorem flush_interval_setter_validates (s : ApprState) (v : FlushValue) :
    (∀ d, v = FlushValue.nonNumeric d → setFlushInterval s v = (s, true)) ∧
    (∀ q, v = FlushValue.num q → q ≤ 0 → setFlushInterval s v = (s, true)) ∧
    (∀ q, v = FlushValue.num q → 0 < q →
      (setFlushInterval s v).2 = false ∧
      (setFlushInterval s v).1.flushInterval = q ∧
      (setFlushInterval s v).1.notificationLevel = s.notificationLevel ∧
      (setFlushInterval s v).1.buffer = s.buffer ∧
      (setFlushInterval s v).1.exitViaUnhandledException
        = s.exitViaUnhandledException) := by
  refine ⟨?_, ?_, ?_⟩
  · rintro d rfl
    rfl
  · rintro q rfl hq
    simp [setFlushInterval, hq]
  · rintro q rfl hq
    have hq' : ¬ q ≤ 0 := not_le.mpr hq
    by_cases he : s.flushInterval = q
    · simp [setFlushInterval, hq', he]
    · simp [setFlushInterval, hq', he]

/-- Witness for C7: rejecting `-1` and storing `5`. -/
theorem flush_interval_setter_validates_witness :
    setFlushInterval ⟨40, 3600, [], true, false⟩ (FlushValue.num (-1))
      = (⟨40, 3600, [], true, false⟩, true) ∧
    (setFlushInterval ⟨40, 3600, [], true, false⟩ (FlushValue.num 5)).1.flushInterval
      = 5 := by
  constructor
  · exact (flush_interval_setter_validates ⟨40, 3600, [], true, false⟩
      (FlushValue.num (-1))).2.1 (-1) rfl (by decide)
  · exact ((flush_interval_setter_validates ⟨40, 3600, [], true, false⟩
      (FlushValue.num 5)).2.2 5 rfl (by decide)).2.1

/-- C8: the `notification_level` setter normalizes an integer rank, a
resolvable level name, or a level object to a single stored integer rank, and
rejects any other type with `TypeError`, leaving the stored rank unchanged. -/
theorem notification_level_setter_normalizes (s : ApprState) (v : LevelValue) :
    (∀ n, v = LevelValue.int n →
      setNotificationLevel s v = ({ s with notificationLevel := n }, SetLevelOutcome.ok)) ∧
    (∀ name r, v = LevelValue.str name → lookupLevel name = some r →
      setNotificationLevel s v = ({ s with notificationLevel := r }, SetLevelOutcome.ok)) ∧
    (∀ name r, v = LevelValue.level name r →
      setNotificationLevel s v = ({ s with notificationLevel := r }, SetLevelOutcome.ok)) ∧
    (∀ d, v = LevelValue.other d →
      setNotificationLevel s v = (s, SetLevelOutcome.typeError)) := by
  refine ⟨?_, ?_, ?_, ?_⟩
  · rintro n rfl
    rfl
  · rintro name r rfl hr
    simp [setNotificationLevel, hr]
  · rintro name r rfl
    rfl
  · rintro d rfl
    rfl

/-- Witness for C8: the name `WARNING` normalizes to rank 30; a value of an
unsupported type is rejected with `TypeError` and the rank keeps its value. -/
theorem notification_level_setter_normalizes_witness :
    setNotificationLevel ⟨40, 3600, [], true, false⟩ (LevelValue.str "WARNING")
      = (⟨30, 3600, [], true, false⟩, SetLevelOutcome.ok) ∧
    setNotificationLevel ⟨40, 3600, [], true, false⟩ (LevelValue.other "list")
      = (⟨40, 3600, [], true, false⟩, SetLevelOutcome.typeError) :=
  ⟨(notification_level_setter_normalizes ⟨40, 3600, [], true, false⟩
      (LevelValue.str "WARNING")).2.1 "WARNING" 30 rfl (by decide),
   (notification_level_setter_normalizes ⟨40, 3600, [], true, false⟩
      (LevelValue.other "list")).2.2.2 "list" rfl⟩

/-- C9: `InterceptHandler.emit` returns immediately, forwarding nothing, on a
record carrying the already-handled marker; on a record without the marker it
sets the marker and forwards the record exactly once, so emitting the same
record twice forwards it at most once. -/
theorem emit_forwards_once (r : StdRecord) :
    (r.hasBeenHandled = true → emit r = (r, [])) ∧
    (r.hasBeenHandled = false →
      (emit r).1 = { r with hasBeenHandled := true } ∧
      (emit r).2 = [(resolveLevel r, r.message)]) ∧
    (emit (emit r).1).2 = [] ∧
    (emit r).2.length + (emit (emit r).1).2.length ≤ 1 := by
  by_cases h : r.hasBeenHandled <;> simp [emit, h]

/-- Witness for C9: a fresh ERROR record is forwarded once, and re-emitting
the marked record forwards nothing. -/
theorem emit_forwards_once_witness :
    (emit ⟨false, "ERROR", 40, "boom"⟩).1 = ⟨true, "ERROR", 40, "boom"⟩ ∧
    (emit ⟨false, "ERROR", 40, "boom"⟩).2 = [(Sum.inl "ERROR", "boom")] ∧
    (emit (emit ⟨false, "ERROR", 40, "boom"⟩).1).2 = [] := by
  have h := emit_forwards_once ⟨false, "ERROR", 40, "boom"⟩
  exact ⟨(h.2.1 rfl).1, (h.2.1 rfl).2, h.2.2.1⟩

/-- Unwrapping a hook that is not an instance wrapper is the identity. -/
theorem unwrapHook_of_not_wrapper (h : ExcHook) (hw : isWrapperHook h = false) :
    unwrapHook h = h := by
  cases h with
  | original b => rfl
  | wrapper inner => simp [isWrapperHook] at hw

/-- Unwrapping is idempotent. -/
theorem unwrapHook_idem (h : ExcHook) : unwrapHook (unwrapHook h) = unwrapHook h := by
  induction h with
  | original b => rfl
  | wrapper inner ih => simpa [unwrapHook] using ih

/-- Installing the hook twice in a row is the same as installing it once, for
either of the two setup routines (both wrap the fully unwrapped chain). -/
theorem setup_hook_stable (f : ExcHook → ExcHook)
    (hf : ∀ h, f h = ExcHook.wrapper (unwrapHook h)) (h : ExcHook) :
    f (f h) = f h := by
  rw [hf h, hf (ExcHook.wrapper (unwrapHook h))]
  simp [unwrapHook, unwrapHook_idem]

/-- Iterating a collapse-then-wrap installer any number of times after a first
installation yields the single wrapper around the fully unwrapped hook. -/
theorem setup_hook_iterate (f : ExcHook → ExcHook)
    (hf : ∀ h, f h = ExcHook.wrapper (unwrapHook h)) :
    ∀ (n : ℕ) (h : ExcHook), f^[n] (f h) = ExcHook.wrapper (unwrapHook h) := by
  intro n
  induction n with
  | zero =>
    intro h
    simpa using hf h
  | succ n ih =>
    intro h
    rw [Function.iterate_succ_apply, setup_hook_stable f hf h]
    exact ih h

/-- C4: starting from any non-wrapper hook, constructing N ≥ 1 `Appriser`
instances leaves both `sys.excepthook` and `threading.excepthook` as a single
instance wrapper bound directly to the original hook — no nested wrappers —
and one uncaught exception reaching the installed hook triggers delivery
exactly once, not N times. -/
theorem exception_hooks_collapse (h0 : ExcHook) (N : ℕ) (hN : 1 ≤ N)
    (hw : isWrapperHook h0 = false) :
    setupSysHook^[N] h0 = ExcHook.wrapper h0 ∧
    hookDeliveries (setupSysHook^[N] h0) = 1 ∧
    setupThreadingHook^[N] h0 = ExcHook.wrapper h0 ∧
    hookDeliveries (setupThreadingHook^[N] h0) = 1 := by
  obtain ⟨n, rfl⟩ : ∃ n, N = n + 1 := ⟨N - 1, by omega⟩
  have hsys : setupSysHook^[n + 1] h0 = ExcHook.wrapper h0 := by
    rw [Function.iterate_succ_apply]
    rw [setup_hook_iterate setupSysHook (fun _ => rfl) n h0]
    rw [unwrapHook_of_not_wrapper h0 hw]
  have hthr : setupThreadingHook^[n + 1] h0 = ExcHook.wrapper h0 := by
    rw [Function.iterate_succ_apply]
    rw [setup_hook_iterate setupThreadingHook (fun _ => rfl) n h0]
    rw [unwrapHook_of_not_wrapper h0 hw]
  obtain ⟨b, rfl⟩ : ∃ b, h0 = ExcHook.original b := by
    cases h0 with
    | original b => exact ⟨b, rfl⟩
    | wrapper inner => simp [isWrapperHook] at hw
  refine ⟨hsys, ?_, hthr, ?_⟩
  · rw [hsys]
    cases b <;> rfl
  · rw [hthr]
    cases b <;> rfl

/-- Witness for C4: three constructions over the stdlib default hook. -/
theorem exception_hooks_collapse_witness :
    setupSysHook^[3] (ExcHook.original true)
      = ExcHook.wrapper (ExcHook.original true) ∧
    hookDeliveries (setupSysHook^[3] (ExcHook.original true)) = 1 ∧
    setupThreadingHook^[3] (ExcHook.original true)
      = ExcHook.wrapper (ExcHook.original true) ∧
    hookDeliveries (setupThreadingHook^[3] (ExcHook.original true)) = 1 :=
  exception_hooks_collapse (ExcHook.original true) 3 (by decide) rfl

/-- After the wrapped `remove()` (remove-all form), the handler table holds the
freshly re-registered accumulator and nothing else: this computes the result
of `newRemove` on the remove-all target for any prior table. -/
theorem newRemove_removeAll (c : LoggerCore) :
    newRemove c none = ⟨[⟨c.nextId, true⟩], c.nextId + 1, some c.nextId⟩ := by
  have hreg : ∀ (n : ℕ) (a : Option ℕ),
      accumulatorRegistered ⟨[], n, a⟩ = false := by
    intro n a
    cases a <;> simp [accumulatorRegistered]
  simp [newRemove, hreg, loggerAdd, oldLoggerRemove]

/-- C5: after any call of the structured logger's remove-all-sinks operation —
through the installed `_new_remove` wrapper, following an arbitrary history of
constructions, ordinary sink additions, and targeted or bulk removals —
exactly one accumulator callback is registered (at most one instance), the
recorded handle is live, and a record at or above the threshold logged
afterwards still reaches the buffer. -/
theorem removal_prevention_restores_accumulator (c0 : LoggerCore)
    (es : List LogEvent) (s : ApprState) (m : Message)
    (hlev : s.notificationLevel ≤ m.levelNo) :
    countAccumulators (List.foldl stepEvent c0 (es ++ [LogEvent.removeAll])) = 1 ∧
    accumulatorRegistered (List.foldl stepEvent c0 (es ++ [LogEvent.removeAll])) = true ∧
    (dispatchToSinks (List.foldl stepEvent c0 (es ++ [LogEvent.removeAll])) s m).buffer
      = s.buffer ++ [m] := by
  rw [List.foldl_append]
  have hstep : stepEvent (List.foldl stepEvent c0 es) LogEvent.removeAll
      = newRemove (List.foldl stepEvent c0 es) none := rfl
  rw [List.foldl_cons, List.foldl_nil, hstep,
    newRemove_removeAll (List.foldl stepEvent c0 es)]
  refine ⟨rfl, ?_, ?_⟩
  · simp [accumulatorRegistered]
  · simp [dispatchToSinks, accumulateLog, hlev]

/-- Witness for C5: two constructed instances, a targeted removal, then a
remove-all; the surviving accumulator still routes an ERROR record into the
buffer. -/
theorem removal_prevention_restores_accumulator_witness :
    countAccumulators (List.foldl stepEvent ⟨[], 0, none⟩
      ([LogEvent.construct, LogEvent.construct, LogEvent.removeOne 1]
        ++ [LogEvent.removeAll])) = 1 ∧
    accumulatorRegistered (List.foldl stepEvent ⟨[], 0, none⟩
      ([LogEvent.construct, LogEvent.construct, LogEvent.removeOne 1]
        ++ [LogEvent.removeAll])) = true ∧
    (dispatchToSinks (List.foldl stepEvent ⟨[], 0, none⟩
      ([LogEvent.construct, LogEvent.construct, LogEvent.removeOne 1]
        ++ [LogEvent.removeAll])) ⟨40, 3600, [], true, false⟩ ⟨40, "boom"⟩).buffer
      = [] ++ [⟨40, "boom"⟩] :=
  removal_prevention_restores_accumulator ⟨[], 0, none⟩
    [LogEvent.construct, LogEvent.construct, LogEvent.removeOne 1]
    ⟨40, 3600, [], true, false⟩ ⟨40, "boom"⟩ (by decide)

end Logprise
